import Mathlib

/-!
Verification of the skill-evaluator core: the pattern-based security
scanner (`scripts/security_scanner.py`) and the risk aggregator
(`scripts/evaluate_skill.py`), shallowly embedded in Lean 4.

Modelling conventions:
* A scanned text line is a `List Char`; Python string slicing/counting
  becomes list operations.
* Python's `re.search` (the only piece of the scanner whose behaviour
  lives outside this repository) is abstracted as a parameter
  `search : String → List Char → Option Nat` returning the start index of
  the first match of a given pattern source text on a line, `none` when
  the pattern does not match.  All filtering, emission, aggregation and
  scoring logic downstream of the matcher is embedded from the source.
* Python floats in the scanner only ever hold small integers, so layer
  and security scores are `Int`; the weighted overall blend of
  `evaluate_skill.py` uses rationals (`ℚ`), on which 0.35 etc. are exact.
* A per-file read (`Path.read_text`) is modelled as an `Except` value so
  that the `try/except` skip-on-failure logic is explicit.
-/

/-- Severity of a finding; `SecurityIssue.severity` in the source is one of
the four strings CRITICAL, HIGH, MEDIUM, LOW. -/
inductive Severity where
  | CRITICAL
  | HIGH
  | MEDIUM
  | LOW
deriving DecidableEq, Repr

/-- The 12 vulnerability categories: the keys of `SecurityScanner.PATTERNS`,
in source order. -/
inductive Category where
  | command_injection
  | path_traversal
  | arbitrary_file_ops
  | privilege_escalation
  | env_var_manipulation
  | dos_patterns
  | information_disclosure
  | insecure_deserialization
  | hardcoded_credentials
  | weak_crypto
  | ssrf
  | xss_output
deriving DecidableEq, Repr, Fintype

/-- One entry of the pattern registry: regex source text, severity,
human description. -/
structure VulnPattern where
  regex : String
  severity : Severity
  description : String
deriving DecidableEq, Repr

open Severity in
/-- `SecurityScanner.PATTERNS`: the static registry mapping each category to
its ordered pattern list (regex source text kept verbatim; braces written
with \x7b/\x7d escapes and single quotes with \x27, denoting the same
characters). -/
def PATTERNS : Category → List VulnPattern
  | Category.command_injection =>
    [⟨"os\\.system\\s*\\(", CRITICAL, "os.system() with potential user input"⟩,
     ⟨"subprocess\\.(call|run|Popen).*shell\\s*=\\s*True", CRITICAL, "subprocess with shell=True"⟩,
     ⟨"\\beval\\s*\\(", CRITICAL, "eval() allows arbitrary code execution"⟩,
     ⟨"\\bexec\\s*\\(", CRITICAL, "exec() allows arbitrary code execution"⟩,
     ⟨"__import__\\s*\\(", HIGH, "__import__() with dynamic module names"⟩,
     ⟨"compile\\s*\\(", HIGH, "compile() with external code"⟩,
     ⟨"\\$\\([^)]*\\$", HIGH, "Command substitution with variables"⟩,
     ⟨"`[^`]*\\$", HIGH, "Backtick command substitution"⟩,
     ⟨"bash\\s+-c\\s+[\"\\\x27].*\\$", CRITICAL, "bash -c with variable expansion"⟩]
  | Category.path_traversal =>
    [⟨"\\.\\./", HIGH, "Directory traversal sequence"⟩,
     ⟨"%2e%2e%2f", HIGH, "URL-encoded traversal"⟩,
     ⟨"\\.\\.\\\\\\\\", HIGH, "Windows directory traversal"⟩,
     ⟨"open\\s*\\([^)]*\\)", MEDIUM, "File open without validation"⟩,
     ⟨"Path\\s*\\([^)]*\\)\\s*(?!\\.resolve\\(\\))", MEDIUM, "Path without resolve()"⟩]
  | Category.arbitrary_file_ops =>
    [⟨"shutil\\.(copy|move|rmtree)", HIGH, "File operations without validation"⟩,
     ⟨"os\\.(remove|unlink|rmdir)", MEDIUM, "File deletion without checks"⟩,
     ⟨"open\\s*\\([^)]*[,\\s]+[\"\\\x27]w[\"\\\x27]", MEDIUM, "File write without validation"⟩]
  | Category.privilege_escalation =>
    [⟨"\\bsudo\\b", CRITICAL, "Privilege elevation with sudo"⟩,
     ⟨"\\bsu\\b(?!\\w)", CRITICAL, "Switching to superuser"⟩,
     ⟨"os\\.setuid", CRITICAL, "Changing user ID"⟩,
     ⟨"os\\.chmod\\s*\\([^)]*0o777", HIGH, "Setting world-writable permissions"⟩,
     ⟨"runas\\s*\\(", CRITICAL, "Windows privilege elevation"⟩]
  | Category.env_var_manipulation =>
    [⟨"os\\.environ\\s*\\[\\s*[\"\\\x27]PATH[\"\\\x27]", HIGH, "Modifying PATH environment variable"⟩,
     ⟨"os\\.environ\\s*\\[\\s*[\"\\\x27]LD_PRELOAD[\"\\\x27]", CRITICAL, "Setting LD_PRELOAD"⟩,
     ⟨"os\\.environ\\s*\\[\\s*[\"\\\x27]PYTHONPATH[\"\\\x27]", HIGH, "Modifying PYTHONPATH"⟩]
  | Category.dos_patterns =>
    [⟨"while\\s+True\\s*:", MEDIUM, "Infinite loop without timeout"⟩,
     ⟨"def\\s+\\w+\\s*\\([^)]*\\)\\s*:.*\\1\\s*\\(", HIGH, "Potential recursive call"⟩,
     ⟨"for\\s+\\w+\\s+in\\s+range\\s*\\(\\s*[0-9]\x7b7,\x7d", MEDIUM, "Very large iteration"⟩]
  | Category.information_disclosure =>
    [⟨"print\\s*\\(.*(?:api[_-]?key|password|token|secret)", MEDIUM, "Logging sensitive data"⟩,
     ⟨"logging\\..*\\(.*(?:api[_-]?key|password|token|secret)", MEDIUM, "Logging credentials"⟩,
     ⟨"traceback\\.print_exc\\s*\\(\\)", LOW, "Exposing stack traces"⟩]
  | Category.insecure_deserialization =>
    [⟨"pickle\\.loads\\s*\\(", HIGH, "Unsafe pickle deserialization"⟩,
     ⟨"yaml\\.load\\s*\\([^)]*\\)(?!.*Loader\\s*=)", HIGH, "yaml.load without SafeLoader"⟩,
     ⟨"marshal\\.loads\\s*\\(", HIGH, "Unsafe marshal deserialization"⟩]
  | Category.hardcoded_credentials =>
    [⟨"(?:api[_-]?key|password|token|secret)\\s*=\\s*[\"\\\x27][^\"\\\x27]\x7b8,\x7d[\"\\\x27]", HIGH, "Hardcoded credentials"⟩,
     ⟨"(?:sk_live|pk_live)_[a-zA-Z0-9]\x7b20,\x7d", HIGH, "Hardcoded API key pattern"⟩,
     ⟨"Bearer\\s+[a-zA-Z0-9_-]\x7b20,\x7d", HIGH, "Hardcoded bearer token"⟩]
  | Category.weak_crypto =>
    [⟨"hashlib\\.md5\\s*\\(", MEDIUM, "Weak hashing algorithm MD5"⟩,
     ⟨"hashlib\\.sha1\\s*\\(", MEDIUM, "Weak hashing algorithm SHA1"⟩,
     ⟨"\\brandom\\.(?:randint|choice|random)\\s*\\(", LOW, "Insecure random for security"⟩]
  | Category.ssrf =>
    [⟨"requests\\.(?:get|post)\\s*\\([^)]*\\)", MEDIUM, "HTTP request without URL validation"⟩,
     ⟨"urllib\\.request\\.urlopen\\s*\\(", MEDIUM, "URL fetch without validation"⟩,
     ⟨"(?:localhost|127\\.0\\.0\\.1|169\\.254\\.169\\.254)", HIGH, "Internal network access"⟩]
  | Category.xss_output =>
    [⟨"<script[^>]*>", MEDIUM, "Script tag in output"⟩,
     ⟨"javascript:", MEDIUM, "JavaScript protocol in URL"⟩,
     ⟨"onerror\\s*=", MEDIUM, "Event handler in output"⟩]

/-- `SecurityScanner._get_recommendation`: category-keyed remediation text
(the dict covers all 12 categories, so the default branch is unreachable). -/
def get_recommendation : Category → String
  | Category.command_injection => "Use subprocess with list arguments and shell=False. Validate all inputs."
  | Category.path_traversal => "Use Path.resolve() and validate paths are within allowed directories."
  | Category.arbitrary_file_ops => "Validate file paths and use temporary directories for untrusted operations."
  | Category.privilege_escalation => "Remove privilege elevation. Run with least necessary privileges."
  | Category.env_var_manipulation => "Avoid modifying system environment variables. Use configuration files."
  | Category.dos_patterns => "Add timeouts, resource limits, and iteration bounds."
  | Category.information_disclosure => "Never log credentials or sensitive data. Use proper error handling."
  | Category.insecure_deserialization => "Use json or yaml.safe_load(). Never deserialize untrusted data."
  | Category.hardcoded_credentials => "Use environment variables or secure secret management."
  | Category.weak_crypto => "Use SHA-256 or stronger. Use secrets module for random values."
  | Category.ssrf => "Validate and allowlist URLs. Restrict access to internal networks."
  | Category.xss_output => "Escape HTML output. Sanitize user content before rendering."

/-- The dataclass `SecurityIssue` (the source stores `category` as a
display string derived from the category key; we keep the key itself). -/
structure SecurityIssue where
  severity : Severity
  category : Category
  description : String
  file_path : String
  line_number : Nat
  code_snippet : List Char
  recommendation : String
deriving DecidableEq, Repr

/-- The dataclass `LayerResult`. -/
structure LayerResult where
  layer_name : String
  passed : Bool
  issues : List SecurityIssue
  score : Int
deriving DecidableEq, Repr

/-- The single-quote character (code point 39). -/
def single_quote : Char := Char.ofNat 39

/-- The double-quote character (code point 34). -/
def double_quote : Char := Char.ofNat 34

/-- Python's `str.count` for a single character. -/
def count_char (c : Char) (l : List Char) : Nat :=
  l.countP (fun a => decide (a = c))

/-- Does `l` start with `pre`?  (helper for the substring test). -/
def begins_with : List Char → List Char → Bool
  | [], _ => true
  | _ :: _, [] => false
  | p :: ps, c :: cs => decide (p = c) && begins_with ps cs

/-- Python's substring operator `marker in line` on character lists. -/
def contains_run (marker : List Char) : List Char → Bool
  | [] => marker.isEmpty
  | c :: cs => begins_with marker (c :: cs) || contains_run marker cs

/-- First suppression marker recognised at `security_scanner.py:309`. -/
def marker_ignore : List Char := "# evaluator: ignore".toList

/-- Second suppression marker recognised at `security_scanner.py:309`. -/
def marker_noqa : List Char := "# noqa".toList

/-- The suppression test of `security_scanner.py:309`:
`'# evaluator: ignore' in line or '# noqa' in line`. -/
def is_suppressed (line : List Char) : Bool :=
  contains_run marker_ignore line || contains_run marker_noqa line

/-- Python's `str.strip()`: drop whitespace from both ends. -/
def py_strip (l : List Char) : List Char :=
  ((l.dropWhile Char.isWhitespace).reverse.dropWhile Char.isWhitespace).reverse

/-- The emitted snippet `line.strip()[:100]` (`security_scanner.py:328`). -/
def snippet (line : List Char) : List Char :=
  (py_strip line).take 100

/-- The quote-parity string-literal heuristic of `security_scanner.py:314-319`:
   count single and double quotes in `line[:start]` and report whether either
   count is odd. -/
def quote_imbalance (line : List Char) (start : Nat) : Bool :=
  let before_match := line.take start
  decide (count_char single_quote before_match % 2 = 1) ||
  decide (count_char double_quote before_match % 2 = 1)

/-- The per-match body of the scan loop (`security_scanner.py:307-330`): given
   a match of pattern `p` starting at `start` on `line`, apply the suppression
   and quote-parity filters and emit at most one finding. -/
def process_match (category : Category) (p : VulnPattern) (file_path : String)
    (line_num : Nat) (line : List Char) (start : Nat) : List SecurityIssue :=
  if is_suppressed line then []
  else if quote_imbalance line start then []
  else [⟨p.severity, category, p.description, file_path, line_num, snippet line,
         get_recommendation category⟩]

/-- The inner pattern loop of `security_scanner.py:305-330`: try every pattern
   of the category on one line, in registry order. -/
def scan_line (search : String → List Char → Option Nat) (category : Category)
    (patterns : List VulnPattern) (file_path : String) (line_num : Nat)
    (line : List Char) : List SecurityIssue :=
  patterns.flatMap (fun p =>
    match search p.regex line with
    | none => []
    | some start => process_match category p file_path line_num line start)

/-- The line loop of `security_scanner.py:304`: `enumerate(lines, 1)`. -/
def scan_lines (search : String → List Char → Option Nat) (category : Category)
    (patterns : List VulnPattern) (file_path : String) :
    Nat → List (List Char) → List SecurityIssue
  | _, [] => []
  | n, l :: ls =>
    scan_line search category patterns file_path n l ++
    scan_lines search category patterns file_path (n + 1) ls

/-- A file presented to the scanner: its (relative) path and the result of
   `read_text` — `Except.error` when the read raises. -/
abbrev FileInput : Type := String × Except String (List (List Char))

/-- `SecurityScanner._scan_patterns` over the post-exclusion file list
   (`security_scanner.py:291-335`): per file, a failing read is caught and the
   file skipped (`except Exception: pass`); otherwise every line is scanned
   against the category's patterns. -/
def scan_patterns (search : String → List Char → Option Nat)
    (category : Category) (files : List FileInput) : List SecurityIssue :=
  files.flatMap (fun f =>
    match f.2 with
    | Except.error _ => []
    | Except.ok lines => scan_lines search category (PATTERNS category) f.1 1 lines)

/-- Categories scanned by `analyze_layer1_input_validation`. -/
def layer1_categories : List Category :=
  [Category.command_injection, Category.path_traversal, Category.arbitrary_file_ops]

/-- Categories scanned by `analyze_layer2_execution_control`. -/
def layer2_categories : List Category :=
  [Category.privilege_escalation, Category.env_var_manipulation,
   Category.insecure_deserialization]

/-- Categories scanned by `analyze_layer3_output_sanitization`. -/
def layer3_categories : List Category :=
  [Category.xss_output, Category.information_disclosure]

/-- Categories scanned by `analyze_layer4_privilege_management`. -/
def layer4_categories : List Category :=
  [Category.hardcoded_credentials, Category.weak_crypto]

/-- Categories scanned by `analyze_layer5_self_protection`. -/
def layer5_categories : List Category :=
  [Category.dos_patterns, Category.ssrf]

/-- Issues of one layer: the concatenation of `_scan_patterns` over the
   layer's categories, in call order. -/
def layer_issues (search : String → List Char → Option Nat)
    (files : List FileInput) (cats : List Category) : List SecurityIssue :=
  cats.flatMap (fun c => scan_patterns search c files)

/-- `self.issues` after `analyze`: the five layers' issues in layer order. -/
def analyze_issues (search : String → List Char → Option Nat)
    (files : List FileInput) : List SecurityIssue :=
  layer_issues search files layer1_categories ++
  layer_issues search files layer2_categories ++
  layer_issues search files layer3_categories ++
  layer_issues search files layer4_categories ++
  layer_issues search files layer5_categories

/-- The Bool test `i.severity in ['CRITICAL', 'HIGH']` used for each layer's
   `passed` flag (`security_scanner.py:176` and the parallel lines). -/
def is_critical_or_high (i : SecurityIssue) : Bool :=
  decide (i.severity = Severity.CRITICAL ∨ i.severity = Severity.HIGH)

/-- The `passed` computation shared by the five `analyze_layerN` methods:
   `len([i for i in layer_issues if i.severity in ['CRITICAL','HIGH']]) == 0`. -/
def layer_passed (issues : List SecurityIssue) : Bool :=
  (issues.filter is_critical_or_high).length == 0

/-- The per-issue deduction of `_calculate_layer_score`
   (`security_scanner.py:361-369`). -/
def issue_deduction (i : SecurityIssue) : Int :=
  match i.severity with
  | Severity.CRITICAL => 40
  | Severity.HIGH => 20
  | Severity.MEDIUM => 10
  | Severity.LOW => 5

/-- The `deductions` accumulator loop of `_calculate_layer_score`. -/
def layer_deductions (issues : List SecurityIssue) : Int :=
  issues.foldl (fun d i => d + issue_deduction i) 0

/-- `SecurityScanner._calculate_layer_score` (`security_scanner.py:355-371`). -/
def calculate_layer_score (issues : List SecurityIssue) : Int :=
  if issues.isEmpty then 100
  else max 0 (100 - layer_deductions issues)

/-- The `LayerResult` each `analyze_layerN` method appends
   (`security_scanner.py:179-184` and parallels). -/
def make_layer_result (layer_name : String) (issues : List SecurityIssue) :
    LayerResult :=
  ⟨layer_name, layer_passed issues, issues, calculate_layer_score issues⟩

/-- The severity counts of `calculate_security_score`
   (`security_scanner.py:379-382`). -/
def count_severity (s : Severity) (issues : List SecurityIssue) : Nat :=
  issues.countP (fun i => decide (i.severity = s))

/-- `SecurityScanner.calculate_security_score` (`security_scanner.py:373-400`).
   Note each tier is `min(cap, cap - count * k)` with no lower clamp. -/
def calculate_security_score (issues : List SecurityIssue) : Int :=
  if issues.isEmpty then 100
  else
    let critical : Int := count_severity Severity.CRITICAL issues
    let high : Int := count_severity Severity.HIGH issues
    let medium : Int := count_severity Severity.MEDIUM issues
    let low : Int := count_severity Severity.LOW issues
    if critical > 0 then min 25 (25 - critical * 5)
    else if high > 0 then min 50 (50 - high * 5)
    else if medium > 0 then min 75 (75 - medium * 3)
    else if low > 0 then min 90 (90 - low * 2)
    else 100

/-- The severity-tier formula as the specification states it, with an
   explicit floor at 0 around every tier (for comparison with
   `calculate_security_score`). -/
def spec_tier_score (issues : List SecurityIssue) : Int :=
  let critical : Int := count_severity Severity.CRITICAL issues
  let high : Int := count_severity Severity.HIGH issues
  let medium : Int := count_severity Severity.MEDIUM issues
  let low : Int := count_severity Severity.LOW issues
  if critical > 0 then max 0 (min 25 (25 - 5 * critical))
  else if high > 0 then max 0 (min 50 (50 - 5 * high))
  else if medium > 0 then max 0 (min 75 (75 - 3 * medium))
  else if low > 0 then max 0 (min 90 (90 - 2 * low))
  else 100

/-- The weighted blend of `SkillEvaluator.calculate_overall_score`
   (`evaluate_skill.py:118-123`), before the display rounding. -/
def calculate_overall (security quality utility compliance : ℚ) : ℚ :=
  security * 0.35 + quality * 0.25 + utility * 0.20 + compliance * 0.20

/-- `SkillEvaluator._determine_recommendation` (`evaluate_skill.py:145-171`);
   `critical_count` is `self.results['security'].get('critical_count', 0)`. -/
def determine_recommendation (overall security compliance : ℚ)
    (critical_count : Nat) : String :=
  if security < 50 then "❌ DO NOT INSTALL - Critical security risks"
  else if critical_count > 0 then "❌ DO NOT INSTALL - Critical vulnerabilities found"
  else if compliance < 40 then "⚠️ NOT RECOMMENDED - Fundamental compliance issues"
  else if overall ≥ 90 then "✅ HIGHLY RECOMMENDED"
  else if overall ≥ 75 then "✅ RECOMMENDED"
  else if overall ≥ 60 then "⚠️ USE WITH CAUTION"
  else if overall ≥ 40 then "⚠️ NOT RECOMMENDED"
  else "❌ DO NOT INSTALL"

/-- `SkillEvaluator._determine_risk_level` (`evaluate_skill.py:173-182`). -/
def determine_risk_level (security_score : ℚ) : String :=
  if security_score ≥ 90 then "Low"
  else if security_score ≥ 75 then "Medium"
  else if security_score ≥ 50 then "High"
  else "Critical"

/-- A concrete scanned line `eval(input_data)` (no quotes, no marker). -/
def demo_line : List Char := "eval(input_data)".toList

/-- The registry entry for `eval(` (third `command_injection` pattern). -/
def eval_pattern : VulnPattern :=
  ⟨"\\beval\\s*\\(", Severity.CRITICAL, "eval() allows arbitrary code execution"⟩

/-- A concrete matcher: the `eval(` pattern matches every line at index 0;
   every other pattern matches nothing. -/
def demo_search : String → List Char → Option Nat :=
  fun p _ => if p = "\\beval\\s*\\(" then some 0 else none

/-- A one-file tree whose single line trips the CRITICAL `eval(` pattern. -/
def demo_files1 : List FileInput := [("scripts/app.py", Except.ok [demo_line])]

/-- A one-file tree with six lines each tripping the CRITICAL `eval(`
   pattern. -/
def demo_files6 : List FileInput :=
  [("scripts/app.py", Except.ok (List.replicate 6 demo_line))]

/-- A concrete CRITICAL finding, as emitted for `demo_line`. -/
def crit_issue : SecurityIssue :=
  ⟨Severity.CRITICAL, Category.command_injection,
   "eval() allows arbitrary code execution", "scripts/app.py", 1,
   snippet demo_line, get_recommendation Category.command_injection⟩

/-- Six CRITICAL findings. -/
def six_criticals : List SecurityIssue := List.replicate 6 crit_issue

/-- The relative path of the demo file. -/
def demo_path : String := "scripts/app.py"

/-- The name of the first layer (`security_scanner.py:180`). -/
def layer1_name : String := "Layer 1: Input Validation & Sanitization"

/-- A line with a CRITICAL match followed by the suppression marker. -/
def suppressed_line : List Char := "eval(x)  # evaluator: ignore".toList

/-- A line with a CRITICAL match and `# noqa` inside a longer comment. -/
def noqa_line : List Char := "x = eval(y)  # noqa legacy cleanup".toList


/-- The registry's key set: the 12 keys of `PATTERNS`, in source order. -/
def registry_categories : List Category :=
  [Category.command_injection, Category.path_traversal, Category.arbitrary_file_ops,
   Category.privilege_escalation, Category.env_var_manipulation, Category.dos_patterns,
   Category.information_disclosure, Category.insecure_deserialization,
   Category.hardcoded_credentials, Category.weak_crypto, Category.ssrf,
   Category.xss_output]

lemma issue_deduction_nonneg (i : SecurityIssue) : 0 ≤ issue_deduction i := by
  unfold issue_deduction
  cases i.severity <;> norm_num

lemma foldl_deduction_ge (issues : List SecurityIssue) :
    ∀ a : Int, a ≤ issues.foldl (fun d i => d + issue_deduction i) a := by
  induction issues with
  | nil => intro a; exact le_refl a
  | cons i is ih =>
    intro a
    calc a ≤ a + issue_deduction i := by have := issue_deduction_nonneg i; omega
    _ ≤ _ := ih (a + issue_deduction i)

lemma layer_deductions_nonneg (issues : List SecurityIssue) :
    0 ≤ layer_deductions issues :=
  foldl_deduction_ge issues 0

/-- The tier characterization of `calculate_security_score`, shared by the
claims below: the empty-list early return folds into the all-counts-zero
branch. -/
lemma calculate_security_score_eq (issues : List SecurityIssue) :
    calculate_security_score issues =
      (if 0 < count_severity Severity.CRITICAL issues then
        min 25 (25 - 5 * (count_severity Severity.CRITICAL issues : Int))
      else if 0 < count_severity Severity.HIGH issues then
        min 50 (50 - 5 * (count_severity Severity.HIGH issues : Int))
      else if 0 < count_severity Severity.MEDIUM issues then
        min 75 (75 - 3 * (count_severity Severity.MEDIUM issues : Int))
      else if 0 < count_severity Severity.LOW issues then
        min 90 (90 - 2 * (count_severity Severity.LOW issues : Int))
      else 100) := by
  by_cases h : issues.isEmpty
  · have h0 : issues = [] := List.isEmpty_iff.mp h
    subst h0
    simp [calculate_security_score, count_severity]
  · simp only [calculate_security_score, h, Bool.false_eq_true, if_false,
      gt_iff_lt, Int.natCast_pos]
    split_ifs <;> omega

/-- C1 (counterexample): the claimed floor at 0 is absent from the code.
With six CRITICAL findings the spec's floored formula gives
max(0, min(25, 25 − 30)) = 0, but `calculate_security_score` returns
min(25, 25 − 30) = −5. -/
theorem security_score_floor_counterexample :
    calculate_security_score six_criticals = -5 ∧
    spec_tier_score six_criticals = 0 ∧
    calculate_security_score six_criticals ≠ spec_tier_score six_criticals := by
  decide

/-- C1 (amended): the overall security score equals the first-applicable
severity-tier formula WITHOUT any floor at 0: if any CRITICAL finding exists
the score is min(25, 25 − 5·criticalCount); else if any HIGH exists it is
min(50, 50 − 5·highCount); else if any MEDIUM exists it is
min(75, 75 − 3·mediumCount); else if any LOW exists it is
min(90, 90 − 2·lowCount); else it is 100.  The value can be negative. -/
theorem security_score_tier_formula (issues : List SecurityIssue) :
    calculate_security_score issues =
      (if 0 < count_severity Severity.CRITICAL issues then
        min 25 (25 - 5 * (count_severity Severity.CRITICAL issues : Int))
      else if 0 < count_severity Severity.HIGH issues then
        min 50 (50 - 5 * (count_severity Severity.HIGH issues : Int))
      else if 0 < count_severity Severity.MEDIUM issues then
        min 75 (75 - 3 * (count_severity Severity.MEDIUM issues : Int))
      else if 0 < count_severity Severity.LOW issues then
        min 90 (90 - 2 * (count_severity Severity.LOW issues : Int))
      else 100) :=
  calculate_security_score_eq issues

/-- C2 (counterexample): a scan can produce an overall security score outside
[0, 100].  Scanning a tree whose one file has six lines tripping the
CRITICAL `eval(` pattern yields score −5 < 0. -/
theorem score_range_counterexample :
    calculate_security_score (analyze_issues demo_search demo_files6) < 0 := by
  decide

/-- C2 (amended): every layer score lies in [0, 100], and the overall
security score is at most 100; the overall score has no lower bound at 0. -/
theorem score_bounds (issues : List SecurityIssue) :
    0 ≤ calculate_layer_score issues ∧ calculate_layer_score issues ≤ 100 ∧
    calculate_security_score issues ≤ 100 := by
  have hd := layer_deductions_nonneg issues
  refine ⟨?_, ?_, ?_⟩
  · unfold calculate_layer_score
    split_ifs <;> omega
  · unfold calculate_layer_score
    split_ifs <;> omega
  · rw [calculate_security_score_eq]
    split_ifs <;> omega

/-- C3: override precedence in `_determine_recommendation`.  For
security = 40, quality = utility = compliance = 100 the weighted overall is
79 (which would band as RECOMMENDED), yet rule 1 (security < 50) fires
first and the recommendation is the hard block. -/
theorem recommendation_override_precedence :
    calculate_overall 40 100 100 100 = 79 ∧
    determine_recommendation (calculate_overall 40 100 100 100) 40 100 0 =
      "❌ DO NOT INSTALL - Critical security risks" ∧
    (75 : ℚ) ≤ calculate_overall 40 100 100 100 ∧
    determine_recommendation (calculate_overall 40 100 100 100) 40 100 0 ≠
      "✅ RECOMMENDED" := by
  have h79 : calculate_overall 40 100 100 100 = 79 := by
    unfold calculate_overall
    norm_num
  refine ⟨h79, ?_, by rw [h79]; norm_num, ?_⟩
  · rw [h79]
    unfold determine_recommendation
    norm_num
  · rw [h79]
    unfold determine_recommendation
    norm_num
    decide

/-- C4: any CRITICAL pattern match that survives the suppression and
quote-parity filters (i.e. any CRITICAL finding emitted by the scan) forces
the overall security score to at most 25. -/
theorem critical_finding_caps_score (search : String → List Char → Option Nat)
    (files : List FileInput)
    (h : ∃ i ∈ analyze_issues search files, i.severity = Severity.CRITICAL) :
    calculate_security_score (analyze_issues search files) ≤ 25 := by
  obtain ⟨i, hi, hs⟩ := h
  have hC : 0 < count_severity Severity.CRITICAL (analyze_issues search files) :=
    List.countP_pos_iff.mpr ⟨i, hi, by simp [hs]⟩
  rw [calculate_security_score_eq, if_pos hC]
  exact min_le_left _ _

/-- C4 (witness): a concrete one-file tree whose single line trips a
CRITICAL pattern outside any string literal and without a suppression
marker; the overall security score is at most 25. -/
theorem critical_finding_caps_score_witness :
    calculate_security_score (analyze_issues demo_search demo_files1) ≤ 25 :=
  critical_finding_caps_score demo_search demo_files1 (by decide)

/-- C5: a layer's `passed` flag is true exactly when the layer has no
CRITICAL and no HIGH finding, and its score is 100 minus the per-finding
deductions (CRITICAL 40, HIGH 20, MEDIUM 10, LOW 5), floored at 0. -/
theorem layer_passed_and_score_spec (layer_name : String)
    (issues : List SecurityIssue) :
    ((make_layer_result layer_name issues).passed = true ↔
      ∀ i ∈ issues, i.severity ≠ Severity.CRITICAL ∧ i.severity ≠ Severity.HIGH) ∧
    (make_layer_result layer_name issues).score =
      max 0 (100 - layer_deductions issues) := by
  constructor
  · simp [make_layer_result, layer_passed, is_critical_or_high,
      List.length_eq_zero, List.filter_eq_nil_iff, not_or]
  · show calculate_layer_score issues = _
    unfold calculate_layer_score
    split_ifs with h
    · have h0 : issues = [] := List.isEmpty_iff.mp h
      subst h0
      simp [layer_deductions]
    · rfl

/-- C5 (witness): instance of the layer property at a concrete layer.  One
CRITICAL finding makes the layer fail with score 60. -/
theorem layer_passed_and_score_spec_witness :
    (make_layer_result layer1_name [crit_issue]).passed
        = false ∧
    (make_layer_result layer1_name [crit_issue]).score
        = 60 := by
  have h := layer_passed_and_score_spec
    layer1_name [crit_issue]
  refine ⟨?_, by rw [h.2]; decide⟩
  by_contra hb
  have := (h.1.mp (by revert hb; cases hp : (make_layer_result
    layer1_name [crit_issue]).passed <;> simp))
    crit_issue (by simp)
  exact this.1 rfl

/-- C6: a pattern match whose preceding character run has an odd count of
single-quote characters or an odd count of double-quote characters is
discarded: no finding is emitted for that match. -/
theorem odd_quote_discards_match (category : Category) (p : VulnPattern)
    (file_path : String) (line_num : Nat) (line : List Char) (start : Nat)
    (h : count_char single_quote (line.take start) % 2 = 1 ∨
         count_char double_quote (line.take start) % 2 = 1) :
    process_match category p file_path line_num line start = [] := by
  unfold process_match
  split_ifs with h1 h2
  · rfl
  · rfl
  · exact absurd (by unfold quote_imbalance; rcases h with h | h <;> simp [h]) h2

/-- C6 (witness): the `eval(` pattern matching right after an opening single
quote is discarded. -/
theorem odd_quote_discards_match_witness :
    (count_char single_quote ((single_quote :: demo_line).take 1) % 2 = 1 ∨
     count_char double_quote ((single_quote :: demo_line).take 1) % 2 = 1) ∧
    process_match Category.command_injection eval_pattern demo_path 1
      (single_quote :: demo_line) 1 = [] :=
  ⟨by decide,
   odd_quote_discards_match Category.command_injection eval_pattern
     demo_path 1 (single_quote :: demo_line) 1 (by decide)⟩

/-- C7: a line carrying the inline suppression marker `# evaluator: ignore`
yields no finding for any pattern match on it. -/
theorem suppression_marker_discards_match (category : Category)
    (p : VulnPattern) (file_path : String) (line_num : Nat) (line : List Char)
    (start : Nat) (h : contains_run marker_ignore line = true) :
    process_match category p file_path line_num line start = [] := by
  unfold process_match
  rw [if_pos]
  unfold is_suppressed
  simp [h]

/-- C7 (witness): a concrete line with the marker after a CRITICAL match. -/
theorem suppression_marker_discards_match_witness :
    contains_run marker_ignore suppressed_line = true ∧
    process_match Category.command_injection eval_pattern demo_path 1
      suppressed_line 0 = [] :=
  ⟨by decide,
   suppression_marker_discards_match Category.command_injection eval_pattern
     demo_path 1 suppressed_line 0 (by decide)⟩

/-- C8: the five layers' category sets are pairwise disjoint and their union
is exactly the registry's key set, so every finding's category belongs to
exactly one layer. -/
theorem layer_categories_partition :
    List.Pairwise (fun a b => ∀ c : Category, c ∈ a → c ∉ b)
      [layer1_categories, layer2_categories, layer3_categories,
       layer4_categories, layer5_categories] ∧
    (∀ c : Category,
      (c ∈ layer1_categories ++ layer2_categories ++ layer3_categories ++
            layer4_categories ++ layer5_categories ↔ c ∈ registry_categories)) := by
  constructor
  · decide
  · decide

/-- C9: a file whose read raises is skipped and the scan of the remaining
files continues — removing a failing file from the walk does not change the
emitted findings, and the scan always returns a finding list (never a
failure). -/
theorem unreadable_file_skipped (search : String → List Char → Option Nat)
    (category : Category) (pre post : List FileInput) (path err : String) :
    scan_patterns search category (pre ++ (path, Except.error err) :: post) =
      scan_patterns search category (pre ++ post) := by
  unfold scan_patterns
  simp

/-- C10: the suppression test is a substring test for either of two marker
tokens: any line containing `# evaluator: ignore` or `# noqa` anywhere
yields zero findings for all of its pattern matches. -/
theorem substring_suppression_silences_line
    (search : String → List Char → Option Nat) (category : Category)
    (file_path : String) (line_num : Nat) (line : List Char)
    (h : contains_run marker_ignore line = true ∨
         contains_run marker_noqa line = true) :
    scan_line search category (PATTERNS category) file_path line_num line
      = [] := by
  have hs : is_suppressed line = true := by
    unfold is_suppressed
    rcases h with h | h <;> simp [h]
  unfold scan_line
  rw [List.flatMap_eq_nil_iff]
  intro p _
  cases hm : search p.regex line with
  | none => rfl
  | some start =>
    simp only []
    unfold process_match
    rw [if_pos hs]

/-- C10 (witness): `# noqa` buried inside a longer trailing comment still
silences a line on which a CRITICAL pattern matches. -/
theorem substring_suppression_silences_line_witness :
    contains_run marker_noqa noqa_line = true ∧
    demo_search eval_pattern.regex noqa_line
      = some 0 ∧
    scan_line demo_search Category.command_injection
      (PATTERNS Category.command_injection) demo_path 1
      noqa_line = [] :=
  ⟨by decide, by decide,
   substring_suppression_silences_line demo_search Category.command_injection
     demo_path 1 noqa_line
     (Or.inr (by decide))⟩
